import Mathlib

/-!
Verification development for a personal finance tracker (accounts,
transactions, transfers as chained transaction pairs, categories).

The service layer is embedded shallowly: the Firestore document store
becomes an explicit `Store` state (one list per collection), each service
method becomes a pure function `Store → ... → Except AppError α × Store`
(the returned store is the post-state, which on the error path keeps any
writes already performed, matching the non-atomic behaviour of the code),
and `serverTimestamp()` becomes an explicit `now : Nat` parameter.
Document ids generated by `addDoc` and the `crypto.randomUUID()` chain id
are modelled by a `nextId` counter in the store.

Numeric amounts are modelled as `ℚ` (JS numbers on the values the app
handles); JS `String.prototype.trim` is modelled by `jsTrim` (strip
whitespace from both ends); `localeCompare` name ordering is modelled as
case-insensitive lexicographic comparison on lower-cased strings.
-/

namespace FinTrack

/-- JS `String.prototype.trim` on the character list: drop whitespace from
the front, then from the back. -/
def trimChars (cs : List Char) : List Char :=
  ((cs.dropWhile Char.isWhitespace).reverse.dropWhile Char.isWhitespace).reverse

/-- Model of JS `String.prototype.trim`. -/
def jsTrim (s : String) : String := ⟨trimChars s.data⟩

/-- The error codes of `src/lib/errors` that the services under
verification use (the module itself is not in the sources; the codes are
taken from their use sites). -/
inductive ErrorCode where
  | INVALID_INPUT
  | INVALID_AMOUNT
  | TRANSACTION_NOT_FOUND
  | ACCOUNT_NOT_FOUND
  | ACCOUNT_EXISTS
  | UNAUTHORIZED
deriving DecidableEq, Repr

/-- `AppError(message, code, status)` from `src/lib/errors`. -/
structure AppError where
  message : String
  code : ErrorCode
  status : Nat
deriving DecidableEq, Repr

/-- Draft payback sub-record in a `CreateTransactionDTO`
(`dueDate` absent models a missing/undefined JS field). -/
structure PaybackDraft where
  dueDate : Option Nat := none
deriving DecidableEq, Repr

/-- `CreateTransactionDTO`: the input of `createTransaction`.  `type` is a
string (the validator checks membership in {POSITIVE, NEGATIVE}). -/
structure CreateTransactionDTO where
  accountId : String
  amount : ℚ
  type : String
  category : String
  description : String
  requiresPayback : Bool := false
  partyName : Option String := none
  chainId : Option String := none
  transactionDate : Option Nat := none
  paybackDetails : Option PaybackDraft := none
deriving DecidableEq, Repr

/-- Stored payback sub-record (after `prepareTransactionData` /
`prepareUpdateData` conversion; `dueDate` may be set to null by an
update). -/
structure StoredPayback where
  dueDate : Option Nat
  status : String
  completedAt : Option Nat
deriving DecidableEq, Repr

/-- A document of the `transactions` collection. -/
structure StoredTxn where
  id : String
  accountId : String
  amount : ℚ
  type : String
  category : String
  description : String
  userId : String
  requiresPayback : Bool
  partyName : Option String
  chainId : Option String
  createdAt : Nat
  updatedAt : Nat
  paybackDetails : Option StoredPayback
deriving DecidableEq, Repr

/-- The chain record value returned by `createChainedTransactions`
(`ChainedTransactions` in the code: no document id in the returned
object). -/
structure ChainRecord where
  chainId : String
  userId : String
  transactionIds : List String
  createdAt : Nat
  status : String
deriving DecidableEq, Repr

/-- A document of the `chainedTransactions` collection. -/
structure StoredChain where
  id : String
  chainId : String
  userId : String
  transactionIds : List String
  createdAt : Nat
  status : String
deriving DecidableEq, Repr

/-- A document of the `accounts` collection. -/
structure StoredAccount where
  id : String
  name : String
  color : String
  userId : String
  isArchived : Bool
  createdAt : Nat
  updatedAt : Nat
deriving DecidableEq, Repr

/-- An account as returned by `getAccountsByUser`: the stored fields plus
the derived, non-persisted balance. -/
structure AccountOut where
  id : String
  name : String
  color : String
  userId : String
  isArchived : Bool
  createdAt : Nat
  updatedAt : Nat
  balance : ℚ
deriving DecidableEq, Repr

/-- A category (`TransactionCategory`): either one of the fixed built-ins
(`isCustom = false`, no owner) or a stored custom category. -/
structure Category where
  id : String
  name : String
  type : String
  icon : String
  color : String
  isCustom : Bool
  userId : Option String := none
deriving DecidableEq, Repr

/-- The document store: one list per collection, plus a counter supplying
fresh document ids / chain ids. -/
structure Store where
  transactions : List StoredTxn
  chains : List StoredChain
  accounts : List StoredAccount
  categories : List Category
  nextId : Nat
deriving DecidableEq, Repr

/-- Fresh document id from the counter (models `addDoc`'s generated id). -/
def freshDocId (n : Nat) : String := "id" ++ Nat.repr n

/-- Fresh chain id from the counter (models `crypto.randomUUID()`). -/
def freshChainId (n : Nat) : String := "chain" ++ Nat.repr n

/-- `ValidationService.validateTransaction` (src/lib/validation.ts).
The `typeof` checks are discharged by typing; JS falsiness of the required
string fields is captured by the `jsTrim`-emptiness checks the code makes
right next to them. -/
def validateTransaction (d : CreateTransactionDTO) : Except AppError Unit :=
  if d.accountId = "" then
    .error ⟨"Account ID is required and must be a string", .INVALID_INPUT, 400⟩
  else if jsTrim d.description = "" then
    .error ⟨"Description is required and must be a non-empty string", .INVALID_INPUT, 400⟩
  else if jsTrim d.category = "" then
    .error ⟨"Category is required and must be a non-empty string", .INVALID_INPUT, 400⟩
  else if d.amount ≤ 0 then
    .error ⟨"Amount must be a positive number", .INVALID_AMOUNT, 400⟩
  else if d.type ≠ "POSITIVE" ∧ d.type ≠ "NEGATIVE" then
    .error ⟨"Transaction type must be either POSITIVE or NEGATIVE", .INVALID_INPUT, 400⟩
  else if d.requiresPayback = true ∧ (d.paybackDetails.bind PaybackDraft.dueDate) = none then
    .error ⟨"Payback details with due date are required when requiresPayback is true",
      .INVALID_INPUT, 400⟩
  else
    .ok ()

/-- `ValidationService.validateAccount` (src/lib/validation.ts). -/
def validateAccount (name color : String) : Except AppError Unit :=
  if jsTrim name = "" then
    .error ⟨"Account name is required", .INVALID_INPUT, 400⟩
  else if jsTrim color = "" then
    .error ⟨"Account color is required", .INVALID_INPUT, 400⟩
  else
    .ok ()

/-- JS `x || null` on an optional string field. -/
def jsOrNone (o : Option String) : Option String :=
  match o with
  | none => none
  | some s => if s = "" then none else some s

/-- `TransactionService.prepareTransactionData`. -/
def prepareTransactionData (userId : String) (d : CreateTransactionDTO)
    (now : Nat) (docId : String) : StoredTxn :=
  { id := docId
    accountId := d.accountId
    amount := d.amount
    type := d.type
    category := d.category
    description := d.description
    userId := userId
    requiresPayback := d.requiresPayback
    partyName := jsOrNone d.partyName
    chainId := jsOrNone d.chainId
    createdAt := d.transactionDate.getD now
    updatedAt := now
    paybackDetails :=
      if d.requiresPayback then
        some { dueDate := some ((d.paybackDetails.bind PaybackDraft.dueDate).getD now)
               status := "PENDING"
               completedAt := none }
      else none }

/-- `TransactionService.createTransaction`: validate, persist, return the
materialized entity.  The catch block re-throws `AppError`s unchanged, so
validation errors surface as-is; storage failures do not arise in the
model. -/
def createTransaction (s : Store) (userId : String) (d : CreateTransactionDTO)
    (now : Nat) : Except AppError StoredTxn × Store :=
  match validateTransaction d with
  | .error e => (.error e, s)
  | .ok _ =>
    let t := prepareTransactionData userId d now (freshDocId s.nextId)
    (.ok t, { s with transactions := s.transactions ++ [t], nextId := s.nextId + 1 })

/-- The sequential leg-creation loop of `createChainedTransactions`: each
draft gets the chain id attached and goes through the single-transaction
create path, in array order; on failure the store keeps the legs already
created. -/
def createLegs (userId chainId : String) (now : Nat) :
    List CreateTransactionDTO → Store → Except AppError (List StoredTxn) × Store
  | [], s => (.ok [], s)
  | d :: ds, s =>
    match createTransaction s userId { d with chainId := some chainId } now with
    | (.error e, s1) => (.error e, s1)
    | (.ok t, s1) =>
      match createLegs userId chainId now ds s1 with
      | (.error e, s2) => (.error e, s2)
      | (.ok ts, s2) => (.ok (t :: ts), s2)

/-- `TransactionService.createChainedTransactions`.  The catch block wraps
every failure (with no `instanceof` re-throw) into a generic
`INVALID_INPUT`/500 error; writes already performed are kept. -/
def createChainedTransactions (s : Store) (userId : String)
    (ds : List CreateTransactionDTO) (now : Nat) : Except AppError ChainRecord × Store :=
  if ds.isEmpty then
    (.error ⟨"No transactions provided", .INVALID_INPUT, 400⟩, s)
  else
    let cid := freshChainId s.nextId
    let s0 : Store := { s with nextId := s.nextId + 1 }
    match createLegs userId cid now ds s0 with
    | (.error _, s1) =>
      (.error ⟨"Failed to create chained transactions", .INVALID_INPUT, 500⟩, s1)
    | (.ok ts, s1) =>
      let chainRec : ChainRecord :=
        { chainId := cid
          userId := userId
          transactionIds := ts.map StoredTxn.id
          createdAt := now
          status := "COMPLETED" }
      (.ok chainRec,
        { s1 with
          chains := s1.chains ++
            [{ id := freshDocId s1.nextId, chainId := cid, userId := userId
               transactionIds := ts.map StoredTxn.id, createdAt := now
               status := "COMPLETED" }]
          nextId := s1.nextId + 1 })

/-- The `try` body of `TransactionService.deleteTransaction`: ownership
checks, then either a chain-wide cascade (all transactions sharing the
chain id, then all chain records with that chain id) or a single-document
delete.  JS truthiness of `transaction.chainId`: null and the empty
string both take the single-delete branch. -/
def deleteTransactionBody (s : Store) (transactionId userId : String) :
    Except AppError Unit × Store :=
  match s.transactions.find? (fun t => t.id = transactionId) with
  | none => (.error ⟨"Transaction not found", .TRANSACTION_NOT_FOUND, 404⟩, s)
  | some t =>
    if t.userId ≠ userId then
      (.error ⟨"Not authorized to delete this transaction", .UNAUTHORIZED, 403⟩, s)
    else
      match t.chainId with
      | some cid =>
        if cid = "" then
          (.ok (), { s with transactions := s.transactions.filter (fun x => x.id ≠ transactionId) })
        else
          (.ok (), { s with
            transactions := s.transactions.filter (fun x => x.chainId ≠ some cid)
            chains := s.chains.filter (fun c => c.chainId ≠ cid) })
      | none =>
        (.ok (), { s with transactions := s.transactions.filter (fun x => x.id ≠ transactionId) })

/-- `TransactionService.deleteTransaction`: unlike every other method of
the service, its catch block has no `instanceof AppError` re-throw, so
every error — including the NotFound/Unauthorized ones raised inside —
reaches the caller re-wrapped as a generic `INVALID_INPUT`/500 error. -/
def deleteTransaction (s : Store) (transactionId userId : String) :
    Except AppError Unit × Store :=
  match deleteTransactionBody s transactionId userId with
  | (.ok u, s1) => (.ok u, s1)
  | (.error _, s1) => (.error ⟨"Failed to delete transaction", .INVALID_INPUT, 500⟩, s1)

/-- Payback sub-record of an `UpdateTransactionDTO` patch. -/
structure PaybackPatch where
  dueDate : Option Nat := none
  status : Option String := none
  completedAt : Option Nat := none
deriving DecidableEq, Repr

/-- `UpdateTransactionDTO`: a partial patch.  `none` models an absent
(undefined) field — `prepareUpdateData` deletes undefined keys before the
write, so absent fields leave the stored value unchanged.
`paybackDetails = some none` models an explicit null. -/
structure UpdateTxnDTO where
  accountId : Option String := none
  amount : Option ℚ := none
  type : Option String := none
  category : Option String := none
  description : Option String := none
  partyName : Option (Option String) := none
  requiresPayback : Option Bool := none
  paybackDetails : Option (Option PaybackPatch) := none
deriving DecidableEq, Repr

/-- The payback conversion done by `prepareUpdateData`
(`status || 'PENDING'`: JS falsiness maps absent and empty status to
PENDING). -/
def preparePaybackPatch (p : PaybackPatch) : StoredPayback :=
  { dueDate := p.dueDate
    status := match p.status with
      | none => "PENDING"
      | some st => if st = "" then "PENDING" else st
    completedAt := p.completedAt }

/-- Effect of `updateDoc` with the prepared update data on a stored
transaction: present fields overwrite, absent fields are left unchanged,
`updatedAt` is refreshed. -/
def applyTxnPatch (t : StoredTxn) (u : UpdateTxnDTO) (now : Nat) : StoredTxn :=
  { t with
    accountId := u.accountId.getD t.accountId
    amount := u.amount.getD t.amount
    type := u.type.getD t.type
    category := u.category.getD t.category
    description := u.description.getD t.description
    partyName := u.partyName.getD t.partyName
    requiresPayback := u.requiresPayback.getD t.requiresPayback
    updatedAt := now
    paybackDetails :=
      match u.paybackDetails with
      | none => t.paybackDetails
      | some none => none
      | some (some p) => some (preparePaybackPatch p) }

/-- `TransactionService.updateTransaction`: NotFound/Unauthorized checks
(re-thrown unwrapped by its catch block), then — when the existing
transaction's category is TRANSFER — the patch is applied with `type`,
`category` and `amount` stripped; otherwise the full patch is applied. -/
def updateTransaction (s : Store) (transactionId : String) (u : UpdateTxnDTO)
    (userId : String) (now : Nat) : Except AppError Unit × Store :=
  match s.transactions.find? (fun t => t.id = transactionId) with
  | none => (.error ⟨"Transaction not found", .TRANSACTION_NOT_FOUND, 404⟩, s)
  | some t =>
    if t.userId ≠ userId then
      (.error ⟨"Not authorized to update this transaction", .UNAUTHORIZED, 403⟩, s)
    else
      let u1 := if t.category = "TRANSFER" then
          { u with type := none, category := none, amount := none }
        else u
      (.ok (), { s with transactions := s.transactions.map (fun x =>
          if x.id = transactionId then applyTxnPatch x u1 now else x) })

/-! ### AccountService -/

/-- `AccountService.createAccount`: validate, case-sensitive duplicate-name
check among the caller's non-archived accounts, then persist with
`isArchived = false`.  There is no try/catch here, so the `AppError`s
surface as raised. -/
def createAccount (s : Store) (userId : String) (name color : String)
    (now : Nat) : Except AppError StoredAccount × Store :=
  match validateAccount name color with
  | .error e => (.error e, s)
  | .ok _ =>
    if s.accounts.any (fun a => a.userId = userId ∧ a.name = name ∧ a.isArchived = false) then
      (.error ⟨"An account with this name already exists", .ACCOUNT_EXISTS, 400⟩, s)
    else
      let a : StoredAccount :=
        { id := freshDocId s.nextId, name := name, color := color, userId := userId
          isArchived := false, createdAt := now, updatedAt := now }
      (.ok a, { s with accounts := s.accounts ++ [a], nextId := s.nextId + 1 })

/-- `UpdateAccountDTO` patch. -/
structure UpdateAccountDTO where
  name : Option String := none
  color : Option String := none
deriving DecidableEq, Repr

/-- `AccountService.updateAccount`: note the signature — no caller user id
at all, hence no ownership check; only NotFound is possible, and the catch
block re-throws `AppError`s unwrapped. -/
def updateAccount (s : Store) (accountId : String) (d : UpdateAccountDTO)
    (now : Nat) : Except AppError Unit × Store :=
  match s.accounts.find? (fun a => a.id = accountId) with
  | none => (.error ⟨"Account not found", .ACCOUNT_NOT_FOUND, 404⟩, s)
  | some _ =>
    (.ok (), { s with accounts := s.accounts.map (fun a =>
        if a.id = accountId then
          { a with name := d.name.getD a.name, color := d.color.getD a.color, updatedAt := now }
        else a) })

/-- `AccountService.deleteAccount`: NotFound/Unauthorized checks, then a
soft archive (`isArchived := true`) — the document is never removed. -/
def deleteAccount (s : Store) (accountId userId : String) (now : Nat) :
    Except AppError Unit × Store :=
  match s.accounts.find? (fun a => a.id = accountId) with
  | none => (.error ⟨"Account not found", .ACCOUNT_NOT_FOUND, 404⟩, s)
  | some a =>
    if a.userId ≠ userId then
      (.error ⟨"Not authorized to delete this account", .UNAUTHORIZED, 403⟩, s)
    else
      (.ok (), { s with accounts := s.accounts.map (fun b =>
          if b.id = accountId then { b with isArchived := true, updatedAt := now } else b) })

/-- Descending order on creation time (`orderBy('createdAt', 'desc')`). -/
def txnDescOrder (a b : StoredTxn) : Prop := b.createdAt ≤ a.createdAt

instance : DecidableRel txnDescOrder := fun a b => Nat.decLe b.createdAt a.createdAt

/-- The query predicate built by `getTransactionQueryConstraints`: equality
on the authenticated user id and the account id, optional inclusive bounds
on `createdAt`. -/
def txnQueryPred (currentUid accountId : String) (startDate endDate : Option Nat)
    (t : StoredTxn) : Bool :=
  decide (t.userId = currentUid) && decide (t.accountId = accountId) &&
  (match startDate with | none => true | some a => decide (a ≤ t.createdAt)) &&
  (match endDate with | none => true | some b => decide (t.createdAt ≤ b))

/-- `TransactionService.getTransactionsByAccount`: requires a non-empty
account id (and an authenticated caller, modelled by `currentUid`), then
returns the matching transactions ordered by creation time descending. -/
def getTransactionsByAccount (s : Store) (currentUid accountId : String)
    (startDate endDate : Option Nat) : Except AppError (List StoredTxn) :=
  if accountId = "" then
    .error ⟨"Account ID and authentication required", .INVALID_INPUT, 400⟩
  else
    .ok (List.insertionSort txnDescOrder
      (s.transactions.filter (txnQueryPred currentUid accountId startDate endDate)))

/-- The balance fold of `getAccountsByUser`:
`Σ (+amount if type == 'POSITIVE' else −amount)` starting from 0. -/
def balanceFold (ts : List StoredTxn) : ℚ :=
  ts.foldl (fun sum t => if t.type = "POSITIVE" then sum + t.amount else sum - t.amount) 0

/-- Sequential effectful map over `Except` (the per-account loop body of
`getAccountsByUser`; an error aborts the whole call). -/
def mapE {α β : Type} (f : α → Except AppError β) : List α → Except AppError (List β)
  | [] => .ok []
  | a :: as =>
    match f a with
    | .error e => .error e
    | .ok b =>
      match mapE f as with
      | .error e => .error e
      | .ok bs => .ok (b :: bs)

/-- Attach the derived balance to a stored account. -/
def accountWithBalance (a : StoredAccount) (bal : ℚ) : AccountOut :=
  { id := a.id, name := a.name, color := a.color, userId := a.userId
    isArchived := a.isArchived, createdAt := a.createdAt, updatedAt := a.updatedAt
    balance := bal }

/-- `AccountService.getAccountsByUser`: fetch the caller's non-archived
accounts, then for each account fetch all of its transactions (no date
bound) and fold them into the balance. -/
def getAccountsByUser (s : Store) (uid : String) : Except AppError (List AccountOut) :=
  mapE (fun a =>
      match getTransactionsByAccount s uid a.id none none with
      | .error e => .error e
      | .ok ts => .ok (accountWithBalance a (balanceFold ts)))
    (s.accounts.filter (fun a => a.userId = uid ∧ a.isArchived = false))

/-- The signed contribution of one transaction to its account's balance:
`+amount` for POSITIVE, `−amount` otherwise (validation only ever stores
POSITIVE or NEGATIVE). -/
def signedAmount (t : StoredTxn) : ℚ :=
  if t.type = "POSITIVE" then t.amount else -t.amount

/-! ### CategoryService -/

/-- The fixed built-in category list of `CategoryService`
(src/services/categories.ts), in code-defined order. -/
def defaultCategories : List Category :=
  [ { id := "default-food", name := "Food & Dining", type := "EXPENSE", icon := "bowl",
      color := "#FF6B6B", isCustom := false }
  , { id := "default-transport", name := "Transportation", type := "EXPENSE", icon := "car",
      color := "#4DABF7", isCustom := false }
  , { id := "default-shopping", name := "Shopping", type := "EXPENSE", icon := "shopping-cart",
      color := "#FF922B", isCustom := false }
  , { id := "default-bills", name := "Bills & Utilities", type := "EXPENSE", icon := "receipt",
      color := "#20C997", isCustom := false }
  , { id := "default-entertainment", name := "Entertainment", type := "EXPENSE", icon := "movie",
      color := "#845EF7", isCustom := false }
  , { id := "default-healthcare", name := "Healthcare", type := "EXPENSE", icon := "heart",
      color := "#F06595", isCustom := false }
  , { id := "default-home", name := "Home", type := "EXPENSE", icon := "home",
      color := "#339AF0", isCustom := false }
  , { id := "default-education", name := "Education", type := "EXPENSE", icon := "school",
      color := "#FF922B", isCustom := false }
  , { id := "default-salary", name := "Salary", type := "INCOME", icon := "wallet",
      color := "#51CF66", isCustom := false }
  , { id := "default-investments", name := "Investments", type := "INCOME", icon := "chart-bar",
      color := "#339AF0", isCustom := false }
  , { id := "default-freelance", name := "Freelance", type := "INCOME", icon := "briefcase",
      color := "#FF922B", isCustom := false }
  , { id := "default-gifts", name := "Gifts", type := "INCOME", icon := "gift",
      color := "#BE4BDB", isCustom := false }
  , { id := "default-transfer", name := "Account Transfer", type := "SELFTRANSFER",
      icon := "arrows-right-left", color := "#4C6EF5", isCustom := false } ]

/-- ASCII lower-casing of one character code (models the case folding of
`localeCompare` on the ASCII names the app uses). -/
def lowerVal (c : Char) : Nat :=
  if 65 ≤ c.toNat ∧ c.toNat ≤ 90 then c.toNat + 32 else c.toNat

/-- Case-insensitive lexicographic comparison of character lists. -/
def lowerLe : List Char → List Char → Bool
  | [], _ => true
  | _ :: _, [] => false
  | a :: as, b :: bs =>
    if lowerVal a < lowerVal b then true
    else if lowerVal b < lowerVal a then false
    else lowerLe as bs

/-- `x.localeCompare(y) ≤ 0`, modelled as case-insensitive lexicographic
string comparison. -/
def nameLe (x y : String) : Prop := lowerLe x.data y.data = true

instance (x y : String) : Decidable (nameLe x y) :=
  inferInstanceAs (Decidable (_ = true))

/-- The sort comparator of `getCategoriesByType` as a relation: `a` may
come before `b` iff the comparator value is ≤ 0 — built-ins (isCustom
false) before customs, name order (`localeCompare`) inside each group. -/
def catLe (a b : Category) : Prop :=
  (a.isCustom = b.isCustom ∧ nameLe a.name b.name) ∨
    (a.isCustom = false ∧ b.isCustom = true)

instance : DecidableRel catLe := fun a b =>
  inferInstanceAs (Decidable ((a.isCustom = b.isCustom ∧ nameLe a.name b.name) ∨
    (a.isCustom = false ∧ b.isCustom = true)))

/-- `CategoryService.getCategoriesByType`: custom categories of the type
from storage, appended after the built-ins of the type, sorted with the
comparator above (JS `Array.prototype.sort` is stable; so is
`insertionSort`). -/
def getCategoriesByType (s : Store) (ty : String) : Except AppError (List Category) :=
  if ty = "" then
    .error ⟨"Category type is required", .INVALID_INPUT, 400⟩
  else
    .ok (List.insertionSort catLe
      (defaultCategories.filter (fun c => c.type = ty) ++
        s.categories.filter (fun c => c.type = ty)))

/-! ### TransferForm -/

/-- The leg descriptions built by `TransferForm.handleSubmit`
(`formData.description ? ': ' + formData.description : ''`). -/
def transferDescription (base accountName descr : String) : String :=
  base ++ accountName ++ (if descr = "" then "" else ": " ++ descr)

/-- The pair of transaction drafts built by `TransferForm.handleSubmit`:
leg 0 debits the source account (NEGATIVE), leg 1 credits the destination
(POSITIVE), both category TRANSFER with the same amount. -/
def buildTransferLegs (fromAccountId toAccountId fromName toName : String)
    (amount : ℚ) (descr : String) : List CreateTransactionDTO :=
  [ { accountId := fromAccountId, amount := amount, type := "NEGATIVE"
      category := "TRANSFER"
      description := transferDescription "Transfer to " toName descr }
  , { accountId := toAccountId, amount := amount, type := "POSITIVE"
      category := "TRANSFER"
      description := transferDescription "Transfer from " fromName descr } ]

deriving instance DecidableEq for Except

/-- Outcome of a `TransferForm` submit: either one of the form's own
client-side rejections (no service call is made) or the service result. -/
inductive SubmitOutcome where
  | formError (msg : String)
  | service (r : Except AppError ChainRecord)
deriving DecidableEq, Repr

/-- `TransferForm.handleSubmit`: same-account and non-positive-amount
guards, account lookups, then `createChainedTransactions` on the two
legs. -/
def handleTransferSubmit (s : Store) (uid : String) (accounts : List AccountOut)
    (fromAccountId toAccountId : String) (amount : ℚ) (descr : String)
    (now : Nat) : SubmitOutcome × Store :=
  if fromAccountId = toAccountId then
    (.formError "Cannot transfer to the same account", s)
  else if amount ≤ 0 then
    (.formError "Transfer amount must be greater than 0", s)
  else
    match accounts.find? (fun a => a.id = fromAccountId),
        accounts.find? (fun a => a.id = toAccountId) with
    | some fromAccount, some toAccount =>
      let legs := buildTransferLegs fromAccountId toAccountId
        fromAccount.name toAccount.name amount descr
      let r := createChainedTransactions s uid legs now
      (.service r.1, r.2)
    | _, _ => (.formError "Invalid accounts selected", s)

/-! ### Concrete fixtures (used by witnesses and counterexamples) -/

def emptyStore : Store :=
  { transactions := [], chains := [], accounts := [], categories := [], nextId := 0 }

def fixChecking : StoredAccount :=
  { id := "a1", name := "Checking", color := "#000", userId := "u", isArchived := false
    createdAt := 0, updatedAt := 0 }

def fixSavings : StoredAccount :=
  { id := "a2", name := "Savings", color := "#111", userId := "u", isArchived := false
    createdAt := 0, updatedAt := 0 }

def fixTxnPlain : StoredTxn :=
  { id := "t1", accountId := "a1", amount := 5, type := "POSITIVE"
    category := "Food & Dining", description := "lunch", userId := "u"
    requiresPayback := false, partyName := none, chainId := none
    createdAt := 1, updatedAt := 1, paybackDetails := none }

def fixLegNeg : StoredTxn :=
  { id := "t2", accountId := "a1", amount := 7, type := "NEGATIVE"
    category := "TRANSFER", description := "Transfer to Savings", userId := "u"
    requiresPayback := false, partyName := none, chainId := some "c9"
    createdAt := 2, updatedAt := 2, paybackDetails := none }

def fixLegPos : StoredTxn :=
  { id := "t3", accountId := "a2", amount := 7, type := "POSITIVE"
    category := "TRANSFER", description := "Transfer from Checking", userId := "u"
    requiresPayback := false, partyName := none, chainId := some "c9"
    createdAt := 2, updatedAt := 2, paybackDetails := none }

def fixChain : StoredChain :=
  { id := "ch1", chainId := "c9", userId := "u", transactionIds := ["t2", "t3"]
    createdAt := 2, status := "COMPLETED" }

def fixStore : Store :=
  { transactions := [fixTxnPlain, fixLegNeg, fixLegPos], chains := [fixChain]
    accounts := [fixChecking, fixSavings], categories := [], nextId := 10 }

def fixDraftOk : CreateTransactionDTO :=
  { accountId := "a1", amount := 5, type := "NEGATIVE", category := "TRANSFER"
    description := "leg one" }

def fixDraftBad : CreateTransactionDTO :=
  { accountId := "a2", amount := 5, type := "POSITIVE", category := "TRANSFER"
    description := "" }

def fixDraftPayback : CreateTransactionDTO :=
  { accountId := "a1", amount := 5, type := "POSITIVE", category := "Food & Dining"
    description := "loan", requiresPayback := true }

def fixPatch : UpdateTxnDTO :=
  { amount := some 100, type := some "POSITIVE", category := some "Food & Dining"
    description := some "changed" }

/-! ### Order instances for the category comparator -/

instance : IsTotal Category catLe := ⟨by
  have tot : ∀ x y : List Char, lowerLe x y = true ∨ lowerLe y x = true := by
    intro x
    induction x with
    | nil => intro y; exact Or.inl rfl
    | cons a as ih =>
      intro y
      cases y with
      | nil => exact Or.inr rfl
      | cons b bs =>
        rcases Nat.lt_trichotomy (lowerVal a) (lowerVal b) with h | h | h
        · refine Or.inl ?_
          unfold lowerLe
          rw [if_pos h]
        · have e1 : lowerLe (a :: as) (b :: bs) = lowerLe as bs := by
            show (if lowerVal a < lowerVal b then true
              else if lowerVal b < lowerVal a then false else lowerLe as bs) = lowerLe as bs
            rw [if_neg (by omega), if_neg (by omega)]
          have e2 : lowerLe (b :: bs) (a :: as) = lowerLe bs as := by
            show (if lowerVal b < lowerVal a then true
              else if lowerVal a < lowerVal b then false else lowerLe bs as) = lowerLe bs as
            rw [if_neg (by omega), if_neg (by omega)]
          rw [e1, e2]
          exact ih bs
        · refine Or.inr ?_
          unfold lowerLe
          rw [if_pos h]
  intro a b
  unfold catLe
  cases ha : a.isCustom <;> cases hb : b.isCustom
  · rcases tot a.name.data b.name.data with h | h
    · exact Or.inl (Or.inl ⟨rfl, h⟩)
    · exact Or.inr (Or.inl ⟨rfl, h⟩)
  · exact Or.inl (Or.inr ⟨rfl, rfl⟩)
  · exact Or.inr (Or.inr ⟨rfl, rfl⟩)
  · rcases tot a.name.data b.name.data with h | h
    · exact Or.inl (Or.inl ⟨rfl, h⟩)
    · exact Or.inr (Or.inl ⟨rfl, h⟩)⟩

instance : IsTrans Category catLe := ⟨by
  have key : ∀ x y z : List Char,
      lowerLe x y = true → lowerLe y z = true → lowerLe x z = true := by
    intro x
    induction x with
    | nil => intro y z h1 h2; rfl
    | cons a as ih =>
      intro y z h1 h2
      cases y with
      | nil => unfold lowerLe at h1; cases h1
      | cons b bs =>
        cases z with
        | nil => unfold lowerLe at h2; cases h2
        | cons c cs =>
          unfold lowerLe at h1 h2 ⊢
          by_cases hab : lowerVal a < lowerVal b
          · rw [if_pos hab] at h1
            by_cases hbc : lowerVal b < lowerVal c
            · rw [if_pos (Nat.lt_trans hab hbc)]
            · rw [if_neg hbc] at h2
              by_cases hcb : lowerVal c < lowerVal b
              · rw [if_pos hcb] at h2; cases h2
              · rw [if_pos (by omega : lowerVal a < lowerVal c)]
          · rw [if_neg hab] at h1
            by_cases hba : lowerVal b < lowerVal a
            · rw [if_pos hba] at h1; cases h1
            · rw [if_neg hba] at h1
              by_cases hbc : lowerVal b < lowerVal c
              · rw [if_pos (by omega : lowerVal a < lowerVal c)]
              · rw [if_neg hbc] at h2
                by_cases hcb : lowerVal c < lowerVal b
                · rw [if_pos hcb] at h2; cases h2
                · rw [if_neg hcb] at h2
                  rw [if_neg (by omega : ¬ lowerVal a < lowerVal c),
                    if_neg (by omega : ¬ lowerVal c < lowerVal a)]
                  exact ih bs cs h1 h2
  intro a b c hab hbc
  unfold catLe at hab hbc ⊢
  rcases hab with ⟨hab1, hab2⟩ | ⟨ha, hb⟩
  · rcases hbc with ⟨hbc1, hbc2⟩ | ⟨hb, hc⟩
    · exact Or.inl ⟨hab1.trans hbc1, key _ _ _ hab2 hbc2⟩
    · exact Or.inr ⟨hab1.trans hb, hc⟩
  · rcases hbc with ⟨hbc1, hbc2⟩ | ⟨hb2, hc⟩
    · exact Or.inr ⟨ha, hbc1 ▸ hb⟩
    · rw [hb] at hb2; cases hb2⟩


/-! ### Helper lemmas -/

theorem trimChars_ne_nil (c : Char) (cs : List Char) (hc : c.isWhitespace = false) :
    trimChars (c :: cs) ≠ [] := by
  unfold trimChars
  rw [List.dropWhile_cons, if_neg (by simp [hc])]
  intro h
  rw [List.reverse_eq_nil_iff, List.dropWhile_eq_nil_iff] at h
  have hcmem := h c (by simp)
  rw [hc] at hcmem
  exact Bool.false_ne_true hcmem

theorem jsTrim_ne_empty (s : String) (c : Char) (cs : List Char)
    (hdata : s.data = c :: cs) (hc : c.isWhitespace = false) : jsTrim s ≠ "" := by
  unfold jsTrim
  rw [hdata]
  intro h
  have hlist : trimChars (c :: cs) = [] := congrArg String.data h
  exact trimChars_ne_nil c cs hc hlist

theorem jsTrim_append_ne_empty (x y : String) (c : Char) (cs : List Char)
    (hx : x.data = c :: cs) (hc : c.isWhitespace = false) : jsTrim (x ++ y) ≠ "" := by
  apply jsTrim_ne_empty _ c (cs ++ y.data) _ hc
  rw [String.data_append, hx]
  rfl

theorem transferDescription_trim_ne (base nm ds : String) (c : Char) (cs : List Char)
    (hbase : base.data = c :: cs) (hc : c.isWhitespace = false) :
    jsTrim (transferDescription base nm ds) ≠ "" := by
  unfold transferDescription
  exact jsTrim_append_ne_empty (base ++ nm) _ c (cs ++ nm.data)
    (by rw [String.data_append, hbase]; rfl) hc

theorem append_ne_empty (x y : String) (c : Char) (cs : List Char)
    (hx : x.data = c :: cs) : x ++ y ≠ "" := by
  intro h
  have hd := congrArg String.data h
  rw [String.data_append, hx] at hd
  simp at hd

theorem freshChainId_ne_empty (n : Nat) : freshChainId n ≠ "" :=
  append_ne_empty "chain" _ 'c' "hain".data rfl

theorem validateTransaction_chainId (d : CreateTransactionDTO) (c : Option String) :
    validateTransaction { d with chainId := c } = validateTransaction d := by
  cases d; rfl

theorem validateTransaction_eq_ok (d : CreateTransactionDTO)
    (h1 : d.accountId ≠ "") (h2 : jsTrim d.description ≠ "") (h3 : jsTrim d.category ≠ "")
    (h4 : 0 < d.amount) (h5 : d.type = "POSITIVE" ∨ d.type = "NEGATIVE")
    (h6 : d.requiresPayback = false) :
    validateTransaction d = .ok () := by
  unfold validateTransaction
  rw [if_neg h1, if_neg h2, if_neg h3, if_neg (not_le.mpr h4),
    if_neg (by rintro ⟨hp, hn⟩; rcases h5 with h | h; exacts [hp h, hn h]),
    if_neg (by rintro ⟨hp, _⟩; rw [h6] at hp; exact Bool.false_ne_true hp)]

theorem createTransaction_of_valid (d : CreateTransactionDTO) (s : Store) (uid : String)
    (now : Nat) (h : validateTransaction d = .ok ()) :
    createTransaction s uid d now =
      (.ok (prepareTransactionData uid d now (freshDocId s.nextId)),
        { s with
          transactions := s.transactions ++ [prepareTransactionData uid d now (freshDocId s.nextId)]
          nextId := s.nextId + 1 }) := by
  unfold createTransaction
  rw [h]

theorem createTransaction_of_invalid (d : CreateTransactionDTO) (s : Store) (uid : String)
    (now : Nat) (e : AppError) (h : validateTransaction d = .error e) :
    createTransaction s uid d now = (.error e, s) := by
  unfold createTransaction
  rw [h]

theorem balanceFold_aux (ts : List StoredTxn) (a : ℚ) :
    ts.foldl (fun sum t => if t.type = "POSITIVE" then sum + t.amount else sum - t.amount) a
      = a + (ts.map signedAmount).sum := by
  induction ts generalizing a with
  | nil => simp
  | cons t ts ih =>
    simp only [List.foldl_cons, List.map_cons, List.sum_cons, ih]
    unfold signedAmount
    by_cases h : t.type = "POSITIVE" <;> simp [h] <;> ring

theorem balanceFold_eq_sum (ts : List StoredTxn) :
    balanceFold ts = (ts.map signedAmount).sum := by
  unfold balanceFold
  rw [balanceFold_aux]
  simp

theorem mapE_ok_mem {α β : Type} (f : α → Except AppError β) :
    ∀ (l : List α) (bs : List β), mapE f l = .ok bs → ∀ b ∈ bs, ∃ a ∈ l, f a = .ok b := by
  intro l
  induction l with
  | nil =>
    intro bs h b hb
    unfold mapE at h
    cases h
    simp at hb
  | cons a as ih =>
    intro bs h b hb
    unfold mapE at h
    cases hfa : f a with
    | error e => rw [hfa] at h; cases h
    | ok v =>
      rw [hfa] at h
      cases hrest : mapE f as with
      | error e => rw [hrest] at h; cases h
      | ok vs =>
        rw [hrest] at h
        cases h
        rcases List.mem_cons.mp hb with rfl | hbs
        · exact ⟨a, List.mem_cons_self a as, hfa⟩
        · rcases ih vs hrest b hbs with ⟨a', ha', hfa'⟩
          exact ⟨a', List.mem_cons_of_mem a ha', hfa'⟩

theorem find?_map_update {α : Type} (q : α → Prop) [DecidablePred q] (g : α → α)
    (hg : ∀ x, q (g x) ↔ q x) :
    ∀ (l : List α) (t : α), l.find? (fun x => q x) = some t →
      (l.map (fun x => if q x then g x else x)).find? (fun x => q x) = some (g t) := by
  intro l
  induction l with
  | nil => intro t h; simp [List.find?] at h
  | cons a as ih =>
    intro t h
    by_cases hq : q a
    · rw [List.find?_cons_of_pos _ (by simpa using hq)] at h
      cases h
      rw [List.map_cons, if_pos hq]
      exact List.find?_cons_of_pos _ (by simpa using (hg a).mpr hq)
    · rw [List.find?_cons_of_neg _ (by simpa using hq)] at h
      rw [List.map_cons, if_neg hq]
      rw [List.find?_cons_of_neg _ (by simpa using hq)]
      exact ih t h

theorem txnQueryPred_no_dates (uid aid : String) (t : StoredTxn) :
    txnQueryPred uid aid none none t
      = (decide (t.userId = uid) && decide (t.accountId = aid)) := by
  unfold txnQueryPred
  simp

theorem jsOrNone_some_ne (c : String) (hc : c ≠ "") : jsOrNone (some c) = some c := by
  unfold jsOrNone
  dsimp only
  rw [if_neg hc]

theorem validateTransaction_cases (d : CreateTransactionDTO) :
    validateTransaction d = .ok () ∨
      ∃ e, validateTransaction d = .error e ∧
        (e.code = .INVALID_INPUT ∨ e.code = .INVALID_AMOUNT) ∧ e.status = 400 := by
  unfold validateTransaction
  split_ifs <;> first
    | exact Or.inl rfl
    | exact Or.inr ⟨_, rfl, by decide, rfl⟩

theorem validateTransaction_ok_not_invalid (d : CreateTransactionDTO) :
    validateTransaction d = .ok () →
      ¬(d.accountId = "" ∨ jsTrim d.description = "" ∨ jsTrim d.category = "" ∨ d.amount ≤ 0 ∨
        (d.type ≠ "POSITIVE" ∧ d.type ≠ "NEGATIVE") ∨
        (d.requiresPayback = true ∧ d.paybackDetails.bind PaybackDraft.dueDate = none)) := by
  unfold validateTransaction
  split_ifs with h1 h2 h3 h4 h5 h6
  · intro he; cases he
  · intro he; cases he
  · intro he; cases he
  · intro he; cases he
  · intro he; cases he
  · intro he; cases he
  · intro _ hdis
    rcases hdis with h | h | h | h | h | h
    exacts [h1 h, h2 h, h3 h, h4 h, h5 h, h6 h]

theorem createLegs_ok_err (uid cid : String) (now : Nat) (d1 d2 : CreateTransactionDTO)
    (s : Store) (e : AppError)
    (h1 : validateTransaction { d1 with chainId := some cid } = .ok ())
    (h2 : validateTransaction { d2 with chainId := some cid } = .error e) :
    createLegs uid cid now [d1, d2] s =
      (.error e,
        { s with
          transactions := s.transactions ++
            [prepareTransactionData uid { d1 with chainId := some cid } now (freshDocId s.nextId)]
          nextId := s.nextId + 1 }) := by
  unfold createLegs
  rw [createTransaction_of_valid _ _ _ _ h1]
  dsimp only
  unfold createLegs
  rw [createTransaction_of_invalid _ _ _ _ _ h2]

theorem createLegs_ok_ok (uid cid : String) (now : Nat) (d1 d2 : CreateTransactionDTO)
    (s : Store)
    (h1 : validateTransaction { d1 with chainId := some cid } = .ok ())
    (h2 : validateTransaction { d2 with chainId := some cid } = .ok ()) :
    createLegs uid cid now [d1, d2] s =
      (.ok [prepareTransactionData uid { d1 with chainId := some cid } now (freshDocId s.nextId),
            prepareTransactionData uid { d2 with chainId := some cid } now
              (freshDocId (s.nextId + 1))],
        { s with
          transactions := (s.transactions ++
            [prepareTransactionData uid { d1 with chainId := some cid } now
              (freshDocId s.nextId)]) ++
            [prepareTransactionData uid { d2 with chainId := some cid } now
              (freshDocId (s.nextId + 1))]
          nextId := s.nextId + 1 + 1 }) := by
  unfold createLegs
  rw [createTransaction_of_valid _ _ _ _ h1]
  dsimp only
  unfold createLegs
  rw [createTransaction_of_valid _ _ _ _ h2]
  dsimp only
  unfold createLegs
  dsimp only

/-- Claim C4 counterexample: on inputs where the claim predicts an
unwrapped NotFound (no such transaction) or Unauthorized (wrong owner)
failure, `deleteTransaction` in fact returns the generic wrapped
`INVALID_INPUT`/500 error. -/
theorem deleteTransaction_unwrapped_counterexample :
    (deleteTransaction emptyStore "t1" "u").1
        = .error ⟨"Failed to delete transaction", .INVALID_INPUT, 500⟩
    ∧ (deleteTransaction fixStore "t1" "v").1
        = .error ⟨"Failed to delete transaction", .INVALID_INPUT, 500⟩
    ∧ ErrorCode.INVALID_INPUT ≠ ErrorCode.TRANSACTION_NOT_FOUND
    ∧ ErrorCode.INVALID_INPUT ≠ ErrorCode.UNAUTHORIZED := by
  refine ⟨by decide, by decide, by decide, by decide⟩

/-- Claim C4 (amended): `deleteTransaction` does detect NotFound (id does
not resolve) and Unauthorized (stored owner differs from the caller)
inside the `try` body, but its catch-all — which, unlike the other service
methods, has no `instanceof AppError` re-throw — re-wraps both into a
generic `INVALID_INPUT`-class failure with status 500 before they reach
the caller. -/
theorem deleteTransaction_errors_wrapped (s : Store) (transactionId userId : String) :
    (s.transactions.find? (fun t => t.id = transactionId) = none →
      deleteTransactionBody s transactionId userId
          = (.error ⟨"Transaction not found", .TRANSACTION_NOT_FOUND, 404⟩, s) ∧
      deleteTransaction s transactionId userId
          = (.error ⟨"Failed to delete transaction", .INVALID_INPUT, 500⟩, s))
    ∧ (∀ t, s.transactions.find? (fun x => x.id = transactionId) = some t → t.userId ≠ userId →
      deleteTransactionBody s transactionId userId
          = (.error ⟨"Not authorized to delete this transaction", .UNAUTHORIZED, 403⟩, s) ∧
      deleteTransaction s transactionId userId
          = (.error ⟨"Failed to delete transaction", .INVALID_INPUT, 500⟩, s)) := by
  constructor
  · intro h
    have hbody : deleteTransactionBody s transactionId userId
        = (.error ⟨"Transaction not found", .TRANSACTION_NOT_FOUND, 404⟩, s) := by
      unfold deleteTransactionBody
      rw [h]
    refine ⟨hbody, ?_⟩
    unfold deleteTransaction
    rw [hbody]
  · intro t hfind hne
    have hbody : deleteTransactionBody s transactionId userId
        = (.error ⟨"Not authorized to delete this transaction", .UNAUTHORIZED, 403⟩, s) := by
      unfold deleteTransactionBody
      rw [hfind]
      dsimp only
      rw [if_pos hne]
    refine ⟨hbody, ?_⟩
    unfold deleteTransaction
    rw [hbody]

/-- Witness for C4's amended theorem: a stored transaction owned by `u`,
deleted by `v`. -/
theorem deleteTransaction_errors_wrapped_w :
    deleteTransactionBody fixStore "t1" "v"
        = (.error ⟨"Not authorized to delete this transaction", .UNAUTHORIZED, 403⟩, fixStore)
    ∧ deleteTransaction fixStore "t1" "v"
        = (.error ⟨"Failed to delete transaction", .INVALID_INPUT, 500⟩, fixStore) :=
  (deleteTransaction_errors_wrapped fixStore "t1" "v").2 fixTxnPlain (by decide) (by decide)

/-- Claim C9: `createTransaction` fails with a 400 validation error of the
`INVALID_INPUT`/`INVALID_AMOUNT` class — and persists nothing — whenever a
required field is missing or invalid, and in particular
`requiresPayback = true` with no `paybackDetails` fails with
`INVALID_INPUT` (non-numeric amounts and non-string fields are excluded by
the typed embedding). -/
theorem createTransaction_rejects_invalid (s : Store) (uid : String)
    (d : CreateTransactionDTO) (now : Nat) :
    ((d.accountId = "" ∨ jsTrim d.description = "" ∨ jsTrim d.category = "" ∨ d.amount ≤ 0 ∨
        (d.type ≠ "POSITIVE" ∧ d.type ≠ "NEGATIVE") ∨
        (d.requiresPayback = true ∧ d.paybackDetails.bind PaybackDraft.dueDate = none)) →
      ∃ e : AppError, createTransaction s uid d now = (.error e, s) ∧
        (e.code = .INVALID_INPUT ∨ e.code = .INVALID_AMOUNT) ∧ e.status = 400)
    ∧ (d.requiresPayback = true → d.paybackDetails = none →
        d.accountId ≠ "" → jsTrim d.description ≠ "" → jsTrim d.category ≠ "" → 0 < d.amount →
        (d.type = "POSITIVE" ∨ d.type = "NEGATIVE") →
        createTransaction s uid d now =
          (.error ⟨"Payback details with due date are required when requiresPayback is true",
            .INVALID_INPUT, 400⟩, s)) := by
  constructor
  · intro hdis
    rcases validateTransaction_cases d with hok | ⟨e, herr, hcode, hstat⟩
    · exact absurd hdis (validateTransaction_ok_not_invalid d hok)
    · exact ⟨e, createTransaction_of_invalid _ _ _ _ _ herr, hcode, hstat⟩
  · intro hrp hpd hacc hdesc hcat hamt hty
    apply createTransaction_of_invalid
    unfold validateTransaction
    rw [if_neg hacc, if_neg hdesc, if_neg hcat, if_neg (not_le.mpr hamt),
      if_neg (by rintro ⟨hp, hn⟩; rcases hty with h | h; exacts [hp h, hn h]),
      if_pos ⟨hrp, by rw [hpd]; rfl⟩]

/-- Witness for C9: `requiresPayback = true` with no `paybackDetails`
fails with `INVALID_INPUT` and leaves the store untouched. -/
theorem createTransaction_rejects_invalid_w :
    createTransaction emptyStore "u" fixDraftPayback 3 =
      (.error ⟨"Payback details with due date are required when requiresPayback is true",
        .INVALID_INPUT, 400⟩, emptyStore) :=
  (createTransaction_rejects_invalid emptyStore "u" fixDraftPayback 3).2 (by decide) (by decide)
    (by decide) (by decide) (by decide) (by decide) (Or.inl (by decide))

/-- Claim C5: when the second leg of a chain creation fails after the
first leg was created, the first leg stays stored (carrying the fresh
chain id, with no partner leg and no chain record for that chain id), no
compensating rollback removes it, and the operation fails with the wrapped
chain-creation error. -/
theorem createChained_partial_failure (s : Store) (uid : String)
    (d1 d2 : CreateTransactionDTO) (now : Nat) (e : AppError)
    (h1 : validateTransaction d1 = .ok ())
    (h2 : validateTransaction d2 = .error e)
    (hfreshT : ∀ t ∈ s.transactions, t.chainId ≠ some (freshChainId s.nextId))
    (hfreshC : ∀ c ∈ s.chains, c.chainId ≠ freshChainId s.nextId) :
    ∃ t1 : StoredTxn,
      createChainedTransactions s uid [d1, d2] now
        = (.error ⟨"Failed to create chained transactions", .INVALID_INPUT, 500⟩,
            { s with transactions := s.transactions ++ [t1], nextId := s.nextId + 1 + 1 }) ∧
      t1.chainId = some (freshChainId s.nextId) ∧
      (s.transactions ++ [t1]).filter (fun x => x.chainId = some (freshChainId s.nextId))
        = [t1] ∧
      s.chains.filter (fun c => c.chainId = freshChainId s.nextId) = [] := by
  have h1' : validateTransaction { d1 with chainId := some (freshChainId s.nextId) } = .ok () := by
    rw [validateTransaction_chainId]; exact h1
  have h2' : validateTransaction { d2 with chainId := some (freshChainId s.nextId) }
      = .error e := by
    rw [validateTransaction_chainId]; exact h2
  refine ⟨prepareTransactionData uid { d1 with chainId := some (freshChainId s.nextId) } now
    (freshDocId (s.nextId + 1)), ?_, ?_, ?_, ?_⟩
  · unfold createChainedTransactions
    rw [if_neg (by simp)]
    dsimp only
    rw [createLegs_ok_err uid (freshChainId s.nextId) now d1 d2
      { s with nextId := s.nextId + 1 } e h1' h2']
  · exact jsOrNone_some_ne _ (freshChainId_ne_empty s.nextId)
  · rw [List.filter_append]
    rw [List.filter_eq_nil_iff.mpr (by
      intro t ht
      simp only [decide_eq_true_eq]
      exact hfreshT t ht)]
    simp only [List.nil_append, List.filter_cons, List.filter_nil]
    rw [if_pos (by
      simp only [decide_eq_true_eq]
      exact jsOrNone_some_ne _ (freshChainId_ne_empty s.nextId))]
  · exact List.filter_eq_nil_iff.mpr (by
      intro c hc
      simp only [decide_eq_true_eq]
      exact hfreshC c hc)

/-- Witness for C5: a valid first leg and a second leg with an empty
description, on the empty store. -/
theorem createChained_partial_failure_w :
    validateTransaction fixDraftOk = .ok () ∧
    validateTransaction fixDraftBad
        = .error ⟨"Description is required and must be a non-empty string", .INVALID_INPUT, 400⟩ ∧
    ∃ t1 : StoredTxn,
      createChainedTransactions emptyStore "u" [fixDraftOk, fixDraftBad] 3
        = (.error ⟨"Failed to create chained transactions", .INVALID_INPUT, 500⟩,
            { emptyStore with
                transactions := emptyStore.transactions ++ [t1]
                nextId := emptyStore.nextId + 1 + 1 }) ∧
      t1.chainId = some (freshChainId emptyStore.nextId) ∧
      (emptyStore.transactions ++ [t1]).filter
          (fun x => x.chainId = some (freshChainId emptyStore.nextId)) = [t1] ∧
      emptyStore.chains.filter (fun c => c.chainId = freshChainId emptyStore.nextId) = [] :=
  ⟨by decide, by decide,
    createChained_partial_failure emptyStore "u" fixDraftOk fixDraftBad 3
      ⟨"Description is required and must be a non-empty string", .INVALID_INPUT, 400⟩
      (by decide) (by decide) (by decide) (by decide)⟩

/-- Claim C10: `updateAccount` takes no caller user id and performs no
ownership check — any existing account gets the patch (plus a refreshed
`updatedAt`) applied regardless of owner, the only possible failure is
NotFound, and it never fails Unauthorized, unlike `deleteAccount`, which
rejects a non-owner with Unauthorized. -/
theorem updateAccount_no_ownership_check (s : Store) (accountId : String)
    (d : UpdateAccountDTO) (uid : String) (now : Nat) :
    (s.accounts.find? (fun a => a.id = accountId) = none →
      updateAccount s accountId d now
        = (.error ⟨"Account not found", .ACCOUNT_NOT_FOUND, 404⟩, s))
    ∧ (∀ a, s.accounts.find? (fun b => b.id = accountId) = some a →
      updateAccount s accountId d now = (.ok (),
        { s with accounts := s.accounts.map (fun b =>
            if b.id = accountId then
              { b with name := d.name.getD b.name, color := d.color.getD b.color, updatedAt := now }
            else b) }) ∧
      (s.accounts.map (fun b =>
          if b.id = accountId then
            { b with name := d.name.getD b.name, color := d.color.getD b.color, updatedAt := now }
          else b)).find? (fun b => b.id = accountId)
        = some { a with name := d.name.getD a.name, color := d.color.getD a.color, updatedAt := now })
    ∧ (∀ e s1, updateAccount s accountId d now = (.error e, s1) →
        e = ⟨"Account not found", .ACCOUNT_NOT_FOUND, 404⟩ ∧ e.code ≠ .UNAUTHORIZED)
    ∧ (∀ a, s.accounts.find? (fun b => b.id = accountId) = some a → a.userId ≠ uid →
        deleteAccount s accountId uid now
          = (.error ⟨"Not authorized to delete this account", .UNAUTHORIZED, 403⟩, s)) := by
  refine ⟨?_, ?_, ?_, ?_⟩
  · intro h
    unfold updateAccount
    rw [h]
  · intro a h
    constructor
    · unfold updateAccount
      rw [h]
    · exact find?_map_update (fun b => b.id = accountId)
        (fun b => { b with name := d.name.getD b.name, color := d.color.getD b.color, updatedAt := now })
        (fun x => Iff.rfl) s.accounts a h
  · intro e s1 h
    unfold updateAccount at h
    cases hf : s.accounts.find? (fun a => a.id = accountId) with
    | none =>
      rw [hf] at h
      dsimp only at h
      have he : (⟨"Account not found", .ACCOUNT_NOT_FOUND, 404⟩ : AppError) = e :=
        congrArg (fun p : Except AppError Unit × Store =>
          match p.1 with | .error x => x | .ok _ => ⟨"", .INVALID_INPUT, 0⟩) h
      refine ⟨he.symm, ?_⟩
      rw [← he]
      decide
    | some a =>
      rw [hf] at h
      dsimp only at h
      exact absurd (congrArg (fun p : Except AppError Unit × Store =>
        match p.1 with | .error _ => True | .ok _ => False) h) (by simp)
  · intro a h hne
    unfold deleteAccount
    rw [h]
    dsimp only
    rw [if_pos hne]

/-- Witness for C10: patching `Checking` (owned by `u`) goes through with
no ownership check, while `deleteAccount` by a stranger `v` is rejected
with Unauthorized. -/
theorem updateAccount_no_ownership_check_w :
    updateAccount fixStore "a1" ({ name := some "Chequing" } : UpdateAccountDTO) 9
        = (.ok (), { fixStore with accounts := fixStore.accounts.map (fun b =>
            if b.id = "a1" then
              { b with name := (some "Chequing").getD b.name, color := (none : Option String).getD b.color, updatedAt := 9 }
            else b) })
    ∧ deleteAccount fixStore "a1" "v" 9
        = (.error ⟨"Not authorized to delete this account", .UNAUTHORIZED, 403⟩, fixStore) :=
  ⟨((updateAccount_no_ownership_check fixStore "a1"
      ({ name := some "Chequing" } : UpdateAccountDTO) "v" 9).2.1 fixChecking (by decide)).1,
   (updateAccount_no_ownership_check fixStore "a1"
      ({ name := some "Chequing" } : UpdateAccountDTO) "v" 9).2.2.2 fixChecking
      (by decide) (by decide)⟩

/-- Claim C7: `createAccount` fails with `ACCOUNT_EXISTS` and persists
nothing exactly when a non-archived account of the same owner carries the
identical (case-sensitive) name; when every same-name account of the
owner is archived — in particular right after `deleteAccount` archived
the only one — creation succeeds. -/
theorem createAccount_unique_name (s : Store) (uid name color : String) (now : Nat)
    (hv : validateAccount name color = .ok ()) :
    ((∃ a ∈ s.accounts, a.userId = uid ∧ a.name = name ∧ a.isArchived = false) →
      createAccount s uid name color now
        = (.error ⟨"An account with this name already exists", .ACCOUNT_EXISTS, 400⟩, s))
    ∧ ((∀ a ∈ s.accounts, a.userId = uid → a.name = name → a.isArchived = true) →
      createAccount s uid name color now
        = (.ok ⟨freshDocId s.nextId, name, color, uid, false, now, now⟩,
           { s with
               accounts := s.accounts ++ [⟨freshDocId s.nextId, name, color, uid, false, now, now⟩]
               nextId := s.nextId + 1 }))
    ∧ (∀ accountId a, s.accounts.find? (fun b => b.id = accountId) = some a → a.userId = uid →
        (∀ b ∈ s.accounts, b.userId = uid → b.name = name → b.isArchived = false →
          b.id = accountId) →
        ∃ s1, deleteAccount s accountId uid now = (.ok (), s1) ∧
          createAccount s1 uid name color now
            = (.ok ⟨freshDocId s1.nextId, name, color, uid, false, now, now⟩,
               { s1 with
                   accounts := s1.accounts ++
                     [⟨freshDocId s1.nextId, name, color, uid, false, now, now⟩]
                   nextId := s1.nextId + 1 })) := by
  refine ⟨?_, ?_, ?_⟩
  · rintro ⟨a, ha, h1, h2, h3⟩
    unfold createAccount
    rw [hv]
    dsimp only
    rw [if_pos (List.any_eq_true.mpr ⟨a, ha, by
      simp only [decide_eq_true_eq]
      exact ⟨h1, h2, h3⟩⟩)]
  · intro hall
    unfold createAccount
    rw [hv]
    dsimp only
    rw [if_neg (fun hc => by
      obtain ⟨a, ha, hp⟩ := List.any_eq_true.mp hc
      simp only [decide_eq_true_eq] at hp
      obtain ⟨p1, p2, p3⟩ := hp
      rw [hall a ha p1 p2] at p3
      cases p3)]
  · intro accountId a hfind hown huniq
    have hdel : deleteAccount s accountId uid now
        = (.ok (), { s with accounts := s.accounts.map (fun b =>
            if b.id = accountId then { b with isArchived := true, updatedAt := now }
            else b) }) := by
      unfold deleteAccount
      rw [hfind]
      dsimp only
      rw [if_neg (not_not_intro hown)]
    refine ⟨_, hdel, ?_⟩
    unfold createAccount
    rw [hv]
    dsimp only
    rw [if_neg (fun hc => by
      obtain ⟨b, hb, hp⟩ := List.any_eq_true.mp hc
      simp only [decide_eq_true_eq] at hp
      obtain ⟨p1, p2, p3⟩ := hp
      obtain ⟨orig, horig, rfl⟩ := List.mem_map.mp hb
      by_cases hid : orig.id = accountId
      · rw [if_pos hid] at p3
        cases p3
      · rw [if_neg hid] at p1 p2 p3
        exact hid (huniq orig horig p1 p2 p3))]

/-- Witness for C7: creating a second `Checking` for `u` fails with
AlreadyExists; after archiving the original via `deleteAccount`, the same
name succeeds. -/
theorem createAccount_unique_name_w :
    createAccount fixStore "u" "Checking" "#222" 9
        = (.error ⟨"An account with this name already exists", .ACCOUNT_EXISTS, 400⟩, fixStore)
    ∧ ∃ s1, deleteAccount fixStore "a1" "u" 9 = (.ok (), s1) ∧
        createAccount s1 "u" "Checking" "#222" 9
          = (.ok ⟨freshDocId s1.nextId, "Checking", "#222", "u", false, 9, 9⟩,
             { s1 with
                 accounts := s1.accounts ++
                   [⟨freshDocId s1.nextId, "Checking", "#222", "u", false, 9, 9⟩]
                 nextId := s1.nextId + 1 }) :=
  ⟨(createAccount_unique_name fixStore "u" "Checking" "#222" 9 (by decide)).1 (by decide),
   (createAccount_unique_name fixStore "u" "Checking" "#222" 9 (by decide)).2.2 "a1" fixChecking
     (by decide) (by decide) (by decide)⟩

/-- Claim C2: deleting an owned transaction that carries a (non-null,
non-empty) chain id removes exactly the transactions sharing that chain id
together with every chain record for it; deleting an owned transaction
with no chain id removes only that transaction, leaving all other
transactions and all chain records unchanged. -/
theorem deleteTransaction_chain_semantics (s : Store) (transactionId userId : String)
    (t : StoredTxn)
    (hfind : s.transactions.find? (fun x => x.id = transactionId) = some t)
    (hown : t.userId = userId) :
    (∀ cid, t.chainId = some cid → cid ≠ "" →
      ∃ s1, deleteTransaction s transactionId userId = (.ok (), s1) ∧
        (∀ x, x ∈ s1.transactions ↔ x ∈ s.transactions ∧ x.chainId ≠ some cid) ∧
        (∀ c, c ∈ s1.chains ↔ c ∈ s.chains ∧ c.chainId ≠ cid) ∧
        s1.accounts = s.accounts ∧ s1.categories = s.categories)
    ∧ (t.chainId = none →
      ∃ s1, deleteTransaction s transactionId userId = (.ok (), s1) ∧
        (∀ x, x ∈ s1.transactions ↔ x ∈ s.transactions ∧ x.id ≠ transactionId) ∧
        s1.chains = s.chains ∧ s1.accounts = s.accounts ∧ s1.categories = s.categories) := by
  constructor
  · intro cid hcid hne
    have hbody : deleteTransactionBody s transactionId userId
        = (.ok (), { s with
            transactions := s.transactions.filter (fun x => x.chainId ≠ some cid)
            chains := s.chains.filter (fun c => c.chainId ≠ cid) }) := by
      unfold deleteTransactionBody
      rw [hfind]
      dsimp only
      rw [if_neg (not_not_intro hown), hcid]
      dsimp only
      rw [if_neg hne]
    refine ⟨{ s with
        transactions := s.transactions.filter (fun x => x.chainId ≠ some cid)
        chains := s.chains.filter (fun c => c.chainId ≠ cid) }, ?_, ?_, ?_, rfl, rfl⟩
    · unfold deleteTransaction
      rw [hbody]
    · intro x
      simp [List.mem_filter]
    · intro c
      simp [List.mem_filter]
  · intro hnone
    have hbody : deleteTransactionBody s transactionId userId
        = (.ok (), { s with
            transactions := s.transactions.filter (fun x => x.id ≠ transactionId) }) := by
      unfold deleteTransactionBody
      rw [hfind]
      dsimp only
      rw [if_neg (not_not_intro hown), hnone]
    refine ⟨{ s with
        transactions := s.transactions.filter (fun x => x.id ≠ transactionId) },
      ?_, ?_, rfl, rfl, rfl⟩
    · unfold deleteTransaction
      rw [hbody]
    · intro x
      simp [List.mem_filter]

/-- Witness for C2: deleting the debit leg of the stored transfer removes
both legs and the chain record but keeps the unrelated plain transaction;
the hypotheses are discharged on `fixStore`. -/
theorem deleteTransaction_chain_semantics_w :
    (∃ s1, deleteTransaction fixStore "t2" "u" = (.ok (), s1) ∧
      (∀ x, x ∈ s1.transactions ↔ x ∈ fixStore.transactions ∧ x.chainId ≠ some "c9") ∧
      (∀ c, c ∈ s1.chains ↔ c ∈ fixStore.chains ∧ c.chainId ≠ "c9") ∧
      s1.accounts = fixStore.accounts ∧ s1.categories = fixStore.categories)
    ∧ (∃ s1, deleteTransaction fixStore "t1" "u" = (.ok (), s1) ∧
      (∀ x, x ∈ s1.transactions ↔ x ∈ fixStore.transactions ∧ x.id ≠ "t1") ∧
      s1.chains = fixStore.chains ∧ s1.accounts = fixStore.accounts ∧
      s1.categories = fixStore.categories) :=
  ⟨(deleteTransaction_chain_semantics fixStore "t2" "u" fixLegNeg (by decide) (by decide)).1
      "c9" (by decide) (by decide),
   (deleteTransaction_chain_semantics fixStore "t1" "u" fixTxnPlain (by decide) (by decide)).2
      (by decide)⟩

/-- Claim C6: updating an owned transaction whose stored category is
TRANSFER silently strips `amount`, `type` and `category` from the patch
and applies the remaining fields, so the stored amount, type and category
are unchanged afterwards; a transaction whose category is not TRANSFER
gets the full patch. -/
theorem updateTransaction_transfer_strip (s : Store) (transactionId userId : String)
    (u : UpdateTxnDTO) (now : Nat) (t : StoredTxn)
    (hfind : s.transactions.find? (fun x => x.id = transactionId) = some t)
    (hown : t.userId = userId) :
    (t.category = "TRANSFER" →
      ∃ s1, updateTransaction s transactionId u userId now = (.ok (), s1) ∧
        s1.transactions.find? (fun x => x.id = transactionId)
          = some (applyTxnPatch t { u with type := none, category := none, amount := none }
              now) ∧
        (applyTxnPatch t { u with type := none, category := none, amount := none } now).amount
          = t.amount ∧
        (applyTxnPatch t { u with type := none, category := none, amount := none } now).type
          = t.type ∧
        (applyTxnPatch t { u with type := none, category := none, amount := none } now).category
          = t.category ∧
        (applyTxnPatch t { u with type := none, category := none, amount := none }
            now).description
          = u.description.getD t.description ∧
        (applyTxnPatch t { u with type := none, category := none, amount := none }
            now).accountId
          = u.accountId.getD t.accountId ∧
        (applyTxnPatch t { u with type := none, category := none, amount := none }
            now).partyName
          = u.partyName.getD t.partyName ∧
        (applyTxnPatch t { u with type := none, category := none, amount := none }
            now).requiresPayback
          = u.requiresPayback.getD t.requiresPayback)
    ∧ (t.category ≠ "TRANSFER" →
      ∃ s1, updateTransaction s transactionId u userId now = (.ok (), s1) ∧
        s1.transactions.find? (fun x => x.id = transactionId)
          = some (applyTxnPatch t u now) ∧
        (applyTxnPatch t u now).amount = u.amount.getD t.amount ∧
        (applyTxnPatch t u now).type = u.type.getD t.type ∧
        (applyTxnPatch t u now).category = u.category.getD t.category ∧
        (applyTxnPatch t u now).description = u.description.getD t.description) := by
  constructor
  · intro hcat
    have hupd : updateTransaction s transactionId u userId now
        = (.ok (), { s with transactions := s.transactions.map (fun x =>
            if x.id = transactionId then
              applyTxnPatch x { u with type := none, category := none, amount := none } now
            else x) }) := by
      unfold updateTransaction
      rw [hfind]
      dsimp only
      rw [if_neg (not_not_intro hown), if_pos hcat]
    refine ⟨_, hupd, ?_, rfl, rfl, rfl, rfl, rfl, rfl, rfl⟩
    exact find?_map_update (fun x : StoredTxn => x.id = transactionId)
      (fun x => applyTxnPatch x { u with type := none, category := none, amount := none } now)
      (fun x => Iff.rfl) s.transactions t hfind
  · intro hcat
    have hupd : updateTransaction s transactionId u userId now
        = (.ok (), { s with transactions := s.transactions.map (fun x =>
            if x.id = transactionId then applyTxnPatch x u now else x) }) := by
      unfold updateTransaction
      rw [hfind]
      dsimp only
      rw [if_neg (not_not_intro hown), if_neg hcat]
    refine ⟨_, hupd, ?_, rfl, rfl, rfl, rfl⟩
    exact find?_map_update (fun x : StoredTxn => x.id = transactionId)
      (fun x => applyTxnPatch x u now)
      (fun x => Iff.rfl) s.transactions t hfind

/-- Witness for C6: patching the stored TRANSFER leg `t2` with a patch
that changes amount/type/category leaves those three stored fields
untouched while applying the description; the plain transaction `t1`
takes the full patch. -/
theorem updateTransaction_transfer_strip_w :
    (∃ s1, updateTransaction fixStore "t2" fixPatch "u" 9 = (.ok (), s1) ∧
      s1.transactions.find? (fun x => x.id = "t2")
        = some (applyTxnPatch fixLegNeg
            { fixPatch with type := none, category := none, amount := none } 9) ∧
      (applyTxnPatch fixLegNeg
          { fixPatch with type := none, category := none, amount := none } 9).amount
        = fixLegNeg.amount ∧
      (applyTxnPatch fixLegNeg
          { fixPatch with type := none, category := none, amount := none } 9).type
        = fixLegNeg.type ∧
      (applyTxnPatch fixLegNeg
          { fixPatch with type := none, category := none, amount := none } 9).category
        = fixLegNeg.category ∧
      (applyTxnPatch fixLegNeg
          { fixPatch with type := none, category := none, amount := none } 9).description
        = fixPatch.description.getD fixLegNeg.description ∧
      (applyTxnPatch fixLegNeg
          { fixPatch with type := none, category := none, amount := none } 9).accountId
        = fixPatch.accountId.getD fixLegNeg.accountId ∧
      (applyTxnPatch fixLegNeg
          { fixPatch with type := none, category := none, amount := none } 9).partyName
        = fixPatch.partyName.getD fixLegNeg.partyName ∧
      (applyTxnPatch fixLegNeg
          { fixPatch with type := none, category := none, amount := none } 9).requiresPayback
        = fixPatch.requiresPayback.getD fixLegNeg.requiresPayback)
    ∧ (∃ s1, updateTransaction fixStore "t1" fixPatch "u" 9 = (.ok (), s1) ∧
      s1.transactions.find? (fun x => x.id = "t1")
        = some (applyTxnPatch fixTxnPlain fixPatch 9) ∧
      (applyTxnPatch fixTxnPlain fixPatch 9).amount
        = fixPatch.amount.getD fixTxnPlain.amount ∧
      (applyTxnPatch fixTxnPlain fixPatch 9).type = fixPatch.type.getD fixTxnPlain.type ∧
      (applyTxnPatch fixTxnPlain fixPatch 9).category
        = fixPatch.category.getD fixTxnPlain.category ∧
      (applyTxnPatch fixTxnPlain fixPatch 9).description
        = fixPatch.description.getD fixTxnPlain.description) :=
  ⟨(updateTransaction_transfer_strip fixStore "t2" "u" fixPatch 9 fixLegNeg
      (by decide) (by decide)).1 (by decide),
   (updateTransaction_transfer_strip fixStore "t1" "u" fixPatch 9 fixTxnPlain
      (by decide) (by decide)).2 (by decide)⟩

theorem sorted_builtins_first (l : List Category) (hs : List.Pairwise catLe l) :
    ∃ bs cs, l = bs ++ cs ∧ (∀ b ∈ bs, b.isCustom = false) ∧ (∀ c ∈ cs, c.isCustom = true) := by
  induction l with
  | nil => exact ⟨[], [], rfl, by simp, by simp⟩
  | cons a l ih =>
    obtain ⟨hhead, htail⟩ := List.pairwise_cons.mp hs
    obtain ⟨bs, cs, hl, hbs, hcs⟩ := ih htail
    cases ha : a.isCustom
    · refine ⟨a :: bs, cs, ?_, ?_, hcs⟩
      · rw [hl, List.cons_append]
      · intro b hb
        rcases List.mem_cons.mp hb with rfl | h
        · exact ha
        · exact hbs b h
    · refine ⟨[], a :: l, rfl, by simp, ?_⟩
      intro c hc
      rcases List.mem_cons.mp hc with rfl | h
      · exact ha
      · rcases hhead c h with ⟨h1, _⟩ | ⟨h1, _⟩
        · rw [← h1]; exact ha
        · rw [h1] at ha; cases ha

/-- Claim C8 counterexample: with no custom categories stored, the claim
predicts that `getCategoriesByType('EXPENSE')` returns the built-in
EXPENSE categories in their code-defined order, i.e. exactly
`defaultCategories.filter (type = EXPENSE)` — but the comparator also
sorts the built-ins by name (`Bills & Utilities` ends up before
`Food & Dining`), so the result differs. -/
theorem getCategoriesByType_code_order_counterexample :
    getCategoriesByType emptyStore "EXPENSE"
      ≠ .ok (defaultCategories.filter (fun c => c.type = "EXPENSE")) := by decide

/-- Claim C8 (amended): `getCategoriesByType(type)` returns the built-in
categories of that type before any custom categories of that type, with
BOTH groups sorted alphabetically by case-insensitive name (the comparator
orders built-ins by name too; they are not kept in code-defined order).
`Sorted catLe` gives the in-group alphabetical order, and the split
`l = bs ++ cs` gives built-ins-before-customs. -/
theorem getCategoriesByType_order (s : Store) (ty : String) (hty : ty ≠ "") :
    ∃ l, getCategoriesByType s ty = .ok l ∧
      l.Perm (defaultCategories.filter (fun c => c.type = ty) ++
        s.categories.filter (fun c => c.type = ty)) ∧
      List.Sorted catLe l ∧
      ∃ bs cs, l = bs ++ cs ∧ (∀ b ∈ bs, b.isCustom = false) ∧
        (∀ c ∈ cs, c.isCustom = true) := by
  refine ⟨List.insertionSort catLe (defaultCategories.filter (fun c => c.type = ty) ++
    s.categories.filter (fun c => c.type = ty)), ?_, ?_, ?_, ?_⟩
  · unfold getCategoriesByType
    rw [if_neg hty]
  · exact List.perm_insertionSort catLe _
  · exact List.sorted_insertionSort catLe _
  · exact sorted_builtins_first _ (List.sorted_insertionSort catLe _)

/-- Witness for C8's amended theorem, at type INCOME on the empty store. -/
theorem getCategoriesByType_order_w :
    ∃ l, getCategoriesByType emptyStore "INCOME" = .ok l ∧
      l.Perm (defaultCategories.filter (fun c => c.type = "INCOME") ++
        emptyStore.categories.filter (fun c => c.type = "INCOME")) ∧
      List.Sorted catLe l ∧
      ∃ bs cs, l = bs ++ cs ∧ (∀ b ∈ bs, b.isCustom = false) ∧
        (∀ c ∈ cs, c.isCustom = true) :=
  getCategoriesByType_order emptyStore "INCOME" (by decide)

/-- Claim C3: every account returned by `getAccountsByUser` carries a
balance equal to the fold, starting from 0, of +amount (POSITIVE) /
−amount (otherwise) over ALL transactions recorded for that account — no
date bound, transfer legs included.  The underlying query also filters on
the authenticated owner's user id, so the statement carries the ownership
coherence hypothesis (every transaction of the account belongs to the
owner), which holds for all stores the service itself writes. -/
theorem getAccountsByUser_balance (s : Store) (uid : String) (res : List AccountOut)
    (hres : getAccountsByUser s uid = .ok res) :
    ∀ ao ∈ res, (∀ t ∈ s.transactions, t.accountId = ao.id → t.userId = uid) →
      ao.balance
        = ((s.transactions.filter (fun t => t.accountId = ao.id)).map signedAmount).sum := by
  intro ao hao hown
  obtain ⟨a, hamem, hfa⟩ := mapE_ok_mem _ _ _ hres ao hao
  cases hg : getTransactionsByAccount s uid a.id none none with
  | error e =>
    rw [hg] at hfa
    cases hfa
  | ok ts =>
    rw [hg] at hfa
    dsimp only at hfa
    injection hfa with hfa2
    subst hfa2
    unfold getTransactionsByAccount at hg
    by_cases hid : a.id = ""
    · rw [if_pos hid] at hg
      cases hg
    · rw [if_neg hid] at hg
      injection hg with hts
      show balanceFold ts
          = ((s.transactions.filter (fun t => t.accountId = a.id)).map signedAmount).sum
      rw [balanceFold_eq_sum, ← hts]
      have hperm : ((List.insertionSort txnDescOrder
            (s.transactions.filter (txnQueryPred uid a.id none none))).map signedAmount).Perm
          ((s.transactions.filter (txnQueryPred uid a.id none none)).map signedAmount) :=
        (List.perm_insertionSort txnDescOrder _).map signedAmount
      rw [hperm.sum_eq]
      congr 1
      congr 1
      apply List.filter_congr
      intro t ht
      rw [txnQueryPred_no_dates]
      by_cases hacc : t.accountId = a.id
      · simp [hacc, hown t ht hacc]
      · simp [hacc]

/-- Witness for C3 on the concrete store: `Checking` holds +5 (plain) and
−7 (transfer leg), so its derived balance is the fold of those two —
which is −2 — and equals the signed sum over its transactions. -/
theorem getAccountsByUser_balance_w :
    getAccountsByUser fixStore "u"
        = .ok [accountWithBalance fixChecking (balanceFold [fixLegNeg, fixTxnPlain]),
               accountWithBalance fixSavings (balanceFold [fixLegPos])]
    ∧ balanceFold [fixLegNeg, fixTxnPlain] = -2
    ∧ (accountWithBalance fixChecking (balanceFold [fixLegNeg, fixTxnPlain])).balance
        = ((fixStore.transactions.filter
            (fun t => t.accountId
              = (accountWithBalance fixChecking (balanceFold [fixLegNeg, fixTxnPlain])).id)).map
              signedAmount).sum :=
  ⟨rfl,
    by
      simp only [balanceFold, List.foldl_cons, List.foldl_nil, fixLegNeg, fixTxnPlain]
      rw [if_neg (by decide : ¬("NEGATIVE" = "POSITIVE"))]
      norm_num,
    getAccountsByUser_balance fixStore "u"
      [accountWithBalance fixChecking (balanceFold [fixLegNeg, fixTxnPlain]),
       accountWithBalance fixSavings (balanceFold [fixLegPos])] rfl
      (accountWithBalance fixChecking (balanceFold [fixLegNeg, fixTxnPlain]))
      (List.mem_cons_self _ _) (by decide)⟩

theorem handleTransferSubmit_ok (s : Store) (uid : String) (accounts : List AccountOut)
    (fromId toId : String) (M : ℚ) (ds : String) (now : Nat) (fa ta : AccountOut)
    (hne : fromId ≠ toId) (hM : ¬ M ≤ 0)
    (hfa : accounts.find? (fun a => a.id = fromId) = some fa)
    (hta : accounts.find? (fun a => a.id = toId) = some ta) :
    handleTransferSubmit s uid accounts fromId toId M ds now
      = (.service (createChainedTransactions s uid
            (buildTransferLegs fromId toId fa.name ta.name M ds) now).1,
         (createChainedTransactions s uid
            (buildTransferLegs fromId toId fa.name ta.name M ds) now).2) := by
  unfold handleTransferSubmit
  rw [if_neg hne, if_neg hM, hfa, hta]

theorem createChainedTransactions_pair_ok (s : Store) (uid : String)
    (d1 d2 : CreateTransactionDTO) (now : Nat)
    (h1 : validateTransaction { d1 with chainId := some (freshChainId s.nextId) } = .ok ())
    (h2 : validateTransaction { d2 with chainId := some (freshChainId s.nextId) } = .ok ()) :
    createChainedTransactions s uid [d1, d2] now
      = (.ok { chainId := freshChainId s.nextId
               userId := uid
               transactionIds :=
                 [(prepareTransactionData uid { d1 with chainId := some (freshChainId s.nextId) }
                     now (freshDocId (s.nextId + 1))).id,
                  (prepareTransactionData uid { d2 with chainId := some (freshChainId s.nextId) }
                     now (freshDocId (s.nextId + 1 + 1))).id]
               createdAt := now
               status := "COMPLETED" },
         { s with
             transactions := (s.transactions ++
               [prepareTransactionData uid { d1 with chainId := some (freshChainId s.nextId) }
                  now (freshDocId (s.nextId + 1))]) ++
               [prepareTransactionData uid { d2 with chainId := some (freshChainId s.nextId) }
                  now (freshDocId (s.nextId + 1 + 1))]
             chains := s.chains ++
               [{ id := freshDocId (s.nextId + 1 + 1 + 1)
                  chainId := freshChainId s.nextId
                  userId := uid
                  transactionIds :=
                    [(prepareTransactionData uid
                        { d1 with chainId := some (freshChainId s.nextId) }
                        now (freshDocId (s.nextId + 1))).id,
                     (prepareTransactionData uid
                        { d2 with chainId := some (freshChainId s.nextId) }
                        now (freshDocId (s.nextId + 1 + 1))).id]
                  createdAt := now
                  status := "COMPLETED" }]
             nextId := s.nextId + 1 + 1 + 1 + 1 }) := by
  unfold createChainedTransactions
  rw [if_neg (by simp)]
  dsimp only
  rw [createLegs_ok_ok uid (freshChainId s.nextId) now d1 d2
    { s with nextId := s.nextId + 1 } h1 h2]
  rfl

/-- Claim C1: submitting the transfer form for user `uid`, a pair of
accounts X ≠ Y and amount M > 0 builds the two legs and
`createChainedTransactions` then creates exactly two transactions, in
array order — first a NEGATIVE leg of M on X, then a POSITIVE leg of M on
Y — sharing the one freshly generated chain id, and exactly one chain
record referencing both transaction ids with status COMPLETED, which is
also the value returned. -/
theorem transfer_creates_chain (s : Store) (uid : String) (accounts : List AccountOut)
    (fromId toId : String) (M : ℚ) (ds : String) (now : Nat) (fa ta : AccountOut)
    (hne : fromId ≠ toId) (hM : 0 < M)
    (hfa : accounts.find? (fun a => a.id = fromId) = some fa)
    (hta : accounts.find? (fun a => a.id = toId) = some ta)
    (hfrom : fromId ≠ "") (hto : toId ≠ "")
    (hfreshT : ∀ t ∈ s.transactions, t.chainId ≠ some (freshChainId s.nextId))
    (hfreshC : ∀ c ∈ s.chains, c.chainId ≠ freshChainId s.nextId) :
    ∃ t1 t2 : StoredTxn, ∃ cr : ChainRecord, ∃ s1 : Store,
      handleTransferSubmit s uid accounts fromId toId M ds now
        = (.service (.ok cr), s1) ∧
      s1.transactions = s.transactions ++ [t1, t2] ∧
      (t1.accountId = fromId ∧ t1.type = "NEGATIVE" ∧ t1.amount = M ∧
        t1.category = "TRANSFER" ∧ t1.chainId = some (freshChainId s.nextId)) ∧
      (t2.accountId = toId ∧ t2.type = "POSITIVE" ∧ t2.amount = M ∧
        t2.category = "TRANSFER" ∧ t2.chainId = some (freshChainId s.nextId)) ∧
      (s.transactions ++ [t1, t2]).filter
          (fun x => x.chainId = some (freshChainId s.nextId)) = [t1, t2] ∧
      (∃ sc : StoredChain, s1.chains = s.chains ++ [sc] ∧
        (s.chains ++ [sc]).filter (fun c => c.chainId = freshChainId s.nextId) = [sc] ∧
        sc.chainId = freshChainId s.nextId ∧ sc.userId = uid ∧
        sc.transactionIds = [t1.id, t2.id] ∧ sc.status = "COMPLETED") ∧
      (cr.chainId = freshChainId s.nextId ∧ cr.userId = uid ∧
        cr.transactionIds = [t1.id, t2.id] ∧ cr.status = "COMPLETED") := by
  have hv1 : validateTransaction
      { ({ accountId := fromId, amount := M, type := "NEGATIVE", category := "TRANSFER"
           description := transferDescription "Transfer to " ta.name ds }
          : CreateTransactionDTO) with
        chainId := some (freshChainId s.nextId) } = .ok () := by
    rw [validateTransaction_chainId]
    exact validateTransaction_eq_ok _ hfrom
      (transferDescription_trim_ne "Transfer to " ta.name ds 'T' "ransfer to ".data rfl
        (by decide))
      (show jsTrim "TRANSFER" ≠ "" by decide) hM (Or.inr rfl) rfl
  have hv2 : validateTransaction
      { ({ accountId := toId, amount := M, type := "POSITIVE", category := "TRANSFER"
           description := transferDescription "Transfer from " fa.name ds }
          : CreateTransactionDTO) with
        chainId := some (freshChainId s.nextId) } = .ok () := by
    rw [validateTransaction_chainId]
    exact validateTransaction_eq_ok _ hto
      (transferDescription_trim_ne "Transfer from " fa.name ds 'T' "ransfer from ".data rfl
        (by decide))
      (show jsTrim "TRANSFER" ≠ "" by decide) hM (Or.inl rfl) rfl
  have hcc := createChainedTransactions_pair_ok s uid
    ({ accountId := fromId, amount := M, type := "NEGATIVE", category := "TRANSFER"
       description := transferDescription "Transfer to " ta.name ds } : CreateTransactionDTO)
    ({ accountId := toId, amount := M, type := "POSITIVE", category := "TRANSFER"
       description := transferDescription "Transfer from " fa.name ds } : CreateTransactionDTO)
    now hv1 hv2
  have hmain := handleTransferSubmit_ok s uid accounts fromId toId M ds now fa ta
    hne (not_le.mpr hM) hfa hta
  unfold buildTransferLegs at hmain
  rw [hcc] at hmain
  dsimp only at hmain
  have hc1 : (prepareTransactionData uid
      { ({ accountId := fromId, amount := M, type := "NEGATIVE", category := "TRANSFER"
           description := transferDescription "Transfer to " ta.name ds }
          : CreateTransactionDTO) with
        chainId := some (freshChainId s.nextId) } now (freshDocId (s.nextId + 1))).chainId
      = some (freshChainId s.nextId) :=
    jsOrNone_some_ne _ (freshChainId_ne_empty s.nextId)
  have hc2 : (prepareTransactionData uid
      { ({ accountId := toId, amount := M, type := "POSITIVE", category := "TRANSFER"
           description := transferDescription "Transfer from " fa.name ds }
          : CreateTransactionDTO) with
        chainId := some (freshChainId s.nextId) } now (freshDocId (s.nextId + 1 + 1))).chainId
      = some (freshChainId s.nextId) :=
    jsOrNone_some_ne _ (freshChainId_ne_empty s.nextId)
  refine ⟨_, _, _, _, hmain, by simp, ⟨rfl, rfl, rfl, rfl, hc1⟩, ⟨rfl, rfl, rfl, rfl, hc2⟩,
    ?_, ⟨_, rfl, ?_, rfl, rfl, rfl, rfl⟩, ⟨rfl, rfl, rfl, rfl⟩⟩
  · rw [List.filter_append]
    rw [List.filter_eq_nil_iff.mpr (by
      intro t ht
      simp only [decide_eq_true_eq]
      exact hfreshT t ht)]
    simp only [List.nil_append, List.filter_cons, List.filter_nil]
    rw [if_pos (by simp only [decide_eq_true_eq]; exact hc2),
      if_pos (by simp only [decide_eq_true_eq]; exact hc1)]
  · rw [List.filter_append]
    rw [List.filter_eq_nil_iff.mpr (by
      intro c hc
      simp only [decide_eq_true_eq]
      exact hfreshC c hc)]
    simp only [List.nil_append, List.filter_cons, List.filter_nil]
    rw [if_pos (by simp)]

/-- Witness for C1: a 50-unit transfer from `Checking` to `Savings`
submitted on the concrete store, all hypotheses discharged by
computation. -/
theorem transfer_creates_chain_w :
    ∃ t1 t2 : StoredTxn, ∃ cr : ChainRecord, ∃ s1 : Store,
      handleTransferSubmit fixStore "u"
          [accountWithBalance fixChecking 0, accountWithBalance fixSavings 0]
          "a1" "a2" 50 "move" 7
        = (.service (.ok cr), s1) ∧
      s1.transactions = fixStore.transactions ++ [t1, t2] ∧
      (t1.accountId = "a1" ∧ t1.type = "NEGATIVE" ∧ t1.amount = 50 ∧
        t1.category = "TRANSFER" ∧ t1.chainId = some (freshChainId fixStore.nextId)) ∧
      (t2.accountId = "a2" ∧ t2.type = "POSITIVE" ∧ t2.amount = 50 ∧
        t2.category = "TRANSFER" ∧ t2.chainId = some (freshChainId fixStore.nextId)) ∧
      (fixStore.transactions ++ [t1, t2]).filter
          (fun x => x.chainId = some (freshChainId fixStore.nextId)) = [t1, t2] ∧
      (∃ sc : StoredChain, s1.chains = fixStore.chains ++ [sc] ∧
        (fixStore.chains ++ [sc]).filter
          (fun c => c.chainId = freshChainId fixStore.nextId) = [sc] ∧
        sc.chainId = freshChainId fixStore.nextId ∧ sc.userId = "u" ∧
        sc.transactionIds = [t1.id, t2.id] ∧ sc.status = "COMPLETED") ∧
      (cr.chainId = freshChainId fixStore.nextId ∧ cr.userId = "u" ∧
        cr.transactionIds = [t1.id, t2.id] ∧ cr.status = "COMPLETED") :=
  transfer_creates_chain fixStore "u"
    [accountWithBalance fixChecking 0, accountWithBalance fixSavings 0]
    "a1" "a2" 50 "move" 7 (accountWithBalance fixChecking 0) (accountWithBalance fixSavings 0)
    (by decide) (by decide) (by decide) (by decide) (by decide) (by decide)
    (by decide) (by decide)

end FinTrack
